import Mathlib

/-!
# Verification of the `fan` block update pipeline (`src/blocks/fan.rs`)

Shallow embedding of the update cycle of the `Fan` block from
`i3status-rust`: sensor-command invocation, JSON-shape parsing,
whitelist/name filtering, range validation, aggregation and rendering.

Modelling conventions:
* `f64` values are modelled as exact rationals `ℚ`; the readings that
  matter lie in `[0, 10000)` where `f64` arithmetic coincides with exact
  rational arithmetic for the operations used here (comparison,
  truncation, rounding of sums of bounded integers).
* `HashMap` iteration is modelled as association-list iteration in list
  order; the aggregates computed below (`min`, `max`, sum/count) do not
  depend on the order.
* Rust `Result`/`?` is modelled with `Except`; the in-place mutation of
  `&mut self` is modelled with explicit state passing (the function
  returns the resulting `Fan` alongside the `Result`).
-/

/-- A `serde_json::Value`: the dynamic JSON value produced by parsing. -/
inductive Json where
  | null
  | bool (b : Bool)
  | num (q : ℚ)
  | str (s : String)
  | arr (elems : List Json)
  | obj (fields : List (String × Json))

/-- `type SensorsOutput = HashMap<String, HashMap<String, serde_json::Value>>`:
chip identifier → input label → opaque per-input value. -/
abbrev SensorsOutput : Type := List (String × List (String × Json))

/-- `type InputReadings = HashMap<String, f64>`: metric name → numeric reading. -/
abbrev InputReadings : Type := List (String × ℚ)

/-- View a JSON value as an object (`serde` map deserialization accepts
exactly JSON objects). -/
def Json.asObj : Json → Option (List (String × Json))
  | .obj fields => some fields
  | _ => none

/-- `serde_json::from_str::<SensorsOutput>` after textual parsing: succeeds
iff the value is an object all of whose field values are again objects. -/
def parseSensorsOutput (j : Json) : Option SensorsOutput :=
  j.asObj.bind fun chips =>
    chips.mapM fun chip =>
      (chip.2.asObj).map fun inputs => (chip.1, inputs)

/-- `serde_json::from_value::<InputReadings>(input_values)`: succeeds iff the
value is an object all of whose field values are numbers.  Failure is the
tolerated case for adapter/metadata entries. -/
def parseInputReadings (j : Json) : Option InputReadings :=
  j.asObj.bind fun fields =>
    fields.mapM fun field =>
      match field.2 with
      | .num q => some (field.1, q)
      | _ => none

/-- Rust `str::starts_with` on a string pattern: prefix test on the
character sequence. -/
def strStartsWith (s p : String) : Bool := p.data.isPrefixOf s.data

/-- Rust `str::ends_with` on a string pattern: suffix test on the
character sequence. -/
def strEndsWith (s p : String) : Bool := p.data.isSuffixOf s.data

/-- Rust `str::trim`: drop leading and trailing whitespace characters. -/
def strTrim (s : String) : String :=
  ⟨((s.data.dropWhile Char.isWhitespace).reverse.dropWhile Char.isWhitespace).reverse⟩

/-- Rust `value as i64` on an `f64`: truncation toward zero (the saturation
and NaN cases of the cast cannot arise, the cast sits behind the range
guard `(0f64..10000f64).contains`). -/
def f64AsI64 (q : ℚ) : Int := q.num.tdiv q.den

/-- Rust `f64::round`: round to nearest, ties away from zero.  Mathlib's
`round` rounds ties up, which agrees on nonnegative arguments; negative
arguments go through negation. -/
def f64Round (q : ℚ) : Int := if q < 0 then -round (-q) else round q

/-- The diagnostic line of
`eprintln!("Fan ({}) outside of range ([0, 10000])", value)`. -/
def rangeDiagnostic (value : ℚ) : String :=
  "Fan (" ++ toString value ++ ") outside of range ([0, 10000])"

/-- The body of the innermost loop of `Fan::update`
(`for (value_name, value) in values_parsed`): the state is the pair of the
accumulated readings `fans` and the emitted diagnostics; a metric is
skipped unless its name starts with `"fan"` and ends with `"input"`; an
in-range value is truncated and pushed, an out-of-range one produces a
non-fatal diagnostic. -/
def processValue (acc : List Int × List String) (entry : String × ℚ) :
    List Int × List String :=
  if ¬ strStartsWith entry.1 "fan" ∨ ¬ strEndsWith entry.1 "input" then acc
  else if 0 ≤ entry.2 ∧ entry.2 < 10000 then
    (acc.1 ++ [f64AsI64 entry.2], acc.2)
  else
    (acc.1, acc.2 ++ [rangeDiagnostic entry.2])

/-- The body of the middle loop of `Fan::update`
(`for (input_name, input_values) in inputs`): skip the input when a
whitelist is configured and does not contain the label; skip silently when
the per-input value does not deserialize as metric-name → number. -/
def processInput (whitelist : Option (List String)) (acc : List Int × List String)
    (input : String × Json) : List Int × List String :=
  if (match whitelist with
      | some wl => !wl.contains input.1
      | none => false) then acc
  else
    match parseInputReadings input.2 with
    | none => acc
    | some values_parsed => values_parsed.foldl processValue acc

/-- The reading-collection loops of `Fan::update`
(`for (_chip, inputs) in parsed`), starting from `fans = Vec::new()`. -/
def collectFans (whitelist : Option (List String)) (parsed : SensorsOutput) :
    List Int × List String :=
  parsed.foldl (fun acc chip => chip.2.foldl (processInput whitelist) acc) ([], [])

/-- `*fans.iter().max()`. -/
def fansMax (fans : List Int) : Option Int := fans.max?

/-- `*fans.iter().min()`. -/
def fansMin (fans : List Int) : Option Int := fans.min?

/-- `(fans.iter().sum::<i64>() as f64 / fans.len() as f64).round() as i64`:
the division is exact in the modelled range, `round` is
round-half-away-from-zero, and the final cast is the identity on the
integral rounding result. -/
def fansAvg (fans : List Int) : Int :=
  f64Round ((fans.sum : ℚ) / (fans.length : ℚ))

/-- Modelled from the spec: `crate::util::FormatTemplate` is not under
`src/`.  Spec 4.5: the format string is compiled once into an ordered list
of literal spans and placeholder tokens; only `{average}`, `{min}` and
`{max}` are recognized placeholders, so a successfully compiled template
only carries those variable names. -/
inductive TemplateToken where
  | lit (s : String)
  | var (name : String)

/-- Modelled from the spec: a compiled format template, an ordered token
list (spec 4.5). -/
abbrev FormatTemplate : Type := List TemplateToken

/-- A token that a successful compilation can produce: a literal, or one of
the three recognized placeholders (spec 4.5). -/
def TemplateToken.known : TemplateToken → Bool
  | .lit _ => true
  | .var n => n == "{average}" || n == "{min}" || n == "{max}"

/-- The construction invariant of a compiled template (spec 4.5):
compilation rejects unknown placeholders, so every variable token is one
of the three recognized names. -/
def FormatTemplate.wellFormed (t : FormatTemplate) : Prop :=
  ∀ tok ∈ t, tok.known = true

instance (t : FormatTemplate) : Decidable t.wellFormed :=
  inferInstanceAs (Decidable (∀ tok ∈ t, TemplateToken.known tok = true))

/-- `Error::BlockError(block, message)` of `crate::errors` (the target of
`block_error`); only the constructor shape matters here. -/
structure BlockError where
  block : String
  message : String

/-- A `std::time::Duration` restricted to whole seconds, all this block
uses. -/
structure Duration where
  secs : Nat

/-- Modelled from the spec: `crate::blocks::Update`, the request to be
re-scheduled after the poll interval, produced by
`self.update_interval.into()` (spec 4.6). -/
structure Update where
  every : Duration

/-- Modelled from the spec: rendering one token of a compiled template
(spec 4.5): a literal span passes through, a placeholder is replaced by the
decimal string of its value from the aggregate map; a missing placeholder
value is a render error. -/
def renderToken (values : List (String × Int)) : TemplateToken → Except BlockError String
  | .lit s => .ok s
  | .var n =>
    match values.lookup n with
    | some v => .ok (toString v)
    | none => .error ⟨"util", "missing placeholder value"⟩

/-- Modelled from the spec: `FormatTemplate::render_static_str` (spec 4.5):
render every token in order and concatenate; the first render error
aborts. -/
def render_static_str : FormatTemplate → List (String × Int) → Except BlockError String
  | [], _ => .ok ""
  | tok :: rest, values =>
    match renderToken values tok with
    | .error e => .error e
    | .ok s =>
      match render_static_str rest values with
      | .error e => .error e
      | .ok srest => .ok (s ++ srest)

/-- The `Fan` block state.  `text` is the DisplayText owned by the
`TextWidget`; `format`, `chip` and `inputs` are fixed at construction. -/
structure Fan where
  text : String
  id : String
  update_interval : Duration
  format : FormatTemplate
  chip : Option String
  inputs : Option (List String)

/-- The result of `Command::new("sensors").args(&args).output()`:
`ok` is `Ok(Output { status, stdout, .. })` — the process was spawned and
ran to completion with some exit status, zero or not; `ioErr` is
`Err(e)` — spawning or collecting failed (command missing, I/O error),
carrying `e.to_string()`. -/
inductive SpawnResult where
  | ok (status : Int) (stdout : String)
  | ioErr (message : String)

/-- The invoker's output text:
`.map(|o| String::from_utf8_lossy(&o.stdout).trim().to_owned())
 .unwrap_or_else(|e| e.to_string())` — trimmed standard output whenever the
process ran (any exit status), the stringified spawn error otherwise. -/
def commandOutputText : SpawnResult → String
  | .ok _status stdout => strTrim stdout
  | .ioErr message => message

/-- `Fan::update`.  `rawParse` is the result of the textual JSON parsing of
the command output (`none` when the output text is not valid JSON); the
typed deserialization `serde_json::from_str::<SensorsOutput>` is its
composition with `parseSensorsOutput`.  The `&mut self` mutation is
explicit: the returned `Fan` is the state after the call. -/
def Fan.update (f : Fan) (rawParse : Option Json) :
    Fan × Except BlockError (Option Update) :=
  match rawParse.bind parseSensorsOutput with
  | none => (f, .error ⟨"temperature", "sensors output is invalid"⟩)
  | some parsed =>
    let fans : List Int := (collectFans f.inputs parsed).1
    if fans.isEmpty then
      (f, .ok (some ⟨f.update_interval⟩))
    else
      match fansMax fans with
      | none => (f, .error ⟨"temperature", "failed to get max temperature"⟩)
      | some max =>
        match fansMin fans with
        | none => (f, .error ⟨"temperature", "failed to get min temperature"⟩)
        | some min =>
          let avg : Int := fansAvg fans
          let values := [("{average}", avg), ("{min}", min), ("{max}", max)]
          match render_static_str f.format values with
          | .error e => (f, .error e)
          | .ok rendered => ({ f with text := rendered }, .ok (some ⟨f.update_interval⟩))

/-! ## Concrete fixtures

A block configured with the default template `"{average}RPM"` and a sample
`sensors -j` output with one chip, an adapter entry and two fan inputs. -/

/-- A `Fan` block as built by `ConfigBlock::new` from the default
configuration (template `"{average}RPM"`, no chip, no whitelist). -/
def exFan : Fan :=
  { text := "previous"
    id := "id0"
    update_interval := ⟨15⟩
    format := [TemplateToken.var "{average}", TemplateToken.lit "RPM"]
    chip := none
    inputs := none }

/-- A sample parsed `sensors -j` output: one chip with an adapter entry
and two tachometer inputs. -/
def exJson : Json := .obj [("chip1", .obj [
  ("Adapter", .str "ISA adapter"),
  ("fan1", .obj [("fan1_input", .num 1200)]),
  ("fan2", .obj [("fan2_input", .num 1400)])])]

/-- The typed deserialization of `exJson`. -/
def exParsed : SensorsOutput := [("chip1", [
  ("Adapter", Json.str "ISA adapter"),
  ("fan1", Json.obj [("fan1_input", Json.num 1200)]),
  ("fan2", Json.obj [("fan2_input", Json.num 1400)])])]

/-- A parsed output whose only input is filtered out by the metric-name
pattern, leaving the ReadingSet empty. -/
def exParsedNoFans : SensorsOutput :=
  [("chip1", [("temp1", Json.obj [("temp1_input", Json.num 42)])])]

/-- The JSON value deserializing to `exParsedNoFans`. -/
def exJsonNoFans : Json :=
  .obj [("chip1", .obj [("temp1", .obj [("temp1_input", .num 42)])])]

/-- A parsed output with three tachometer inputs, two of which report the
same value. -/
def exParsedDup : SensorsOutput := [("chip1", [
  ("fan1", Json.obj [("fan1_input", Json.num 100)]),
  ("fan2", Json.obj [("fan2_input", Json.num 100)]),
  ("fan3", Json.obj [("fan3_input", Json.num 103)])])]

/-! ## Helper lemmas -/

/-- The spec's rounding rule stated in its own words: nearest integer,
ties rounded away from zero (`⌊q + 1/2⌋` for nonnegative `q`,
`⌈q - 1/2⌉` for negative `q`). -/
def roundHalfAwayFromZero (q : ℚ) : Int :=
  if 0 ≤ q then ⌊q + 1/2⌋ else ⌈q - 1/2⌉

lemma f64Round_eq_roundHalfAwayFromZero (q : ℚ) :
    f64Round q = roundHalfAwayFromZero q := by
  unfold f64Round roundHalfAwayFromZero
  rcases lt_or_le q 0 with h | h
  · rw [if_pos h, if_neg (not_le.mpr h), round_eq,
      show (-q + 1/2 : ℚ) = -(q - 1/2) by ring, Int.floor_neg, neg_neg]
  · rw [if_neg (not_lt.mpr h), if_pos h, round_eq]

lemma f64Round_bounds {q : ℚ} {a b : ℤ} (h0 : 0 ≤ q)
    (ha : (a : ℚ) ≤ q) (hb : q ≤ (b : ℚ)) :
    a ≤ f64Round q ∧ f64Round q ≤ b := by
  rw [f64Round, if_neg (not_lt.mpr h0), round_eq]
  constructor
  · exact Int.le_floor.mpr (by linarith)
  · have : ⌊q + 1/2⌋ < b + 1 := Int.floor_lt.mpr (by push_cast; linarith)
    omega

instance : Std.Antisymm (fun a b : ℤ => a ≤ b) :=
  ⟨fun h₁ h₂ => Int.le_antisymm h₁ h₂⟩

lemma int_min?_eq_some_iff {l : List Int} {a : Int} :
    l.min? = some a ↔ a ∈ l ∧ ∀ b ∈ l, a ≤ b :=
  List.min?_eq_some_iff (fun _ => le_refl _) (fun _ _ => min_choice _ _)
    (fun _ _ _ => le_min_iff)

lemma int_max?_eq_some_iff {l : List Int} {a : Int} :
    l.max? = some a ↔ a ∈ l ∧ ∀ b ∈ l, b ≤ a :=
  List.max?_eq_some_iff (fun _ => le_refl _) (fun _ _ => max_choice _ _)
    (fun _ _ _ => max_le_iff)

lemma fansMin_spec {l : List Int} (h : l ≠ []) :
    ∃ mn, fansMin l = some mn ∧ mn ∈ l ∧ ∀ b ∈ l, mn ≤ b := by
  cases hm : l.min? with
  | none => exact absurd (List.min?_eq_none_iff.mp hm) h
  | some a =>
    obtain ⟨ha, hb⟩ := int_min?_eq_some_iff.mp hm
    exact ⟨a, hm, ha, hb⟩

lemma fansMax_spec {l : List Int} (h : l ≠ []) :
    ∃ mx, fansMax l = some mx ∧ mx ∈ l ∧ ∀ b ∈ l, b ≤ mx := by
  cases hm : l.max? with
  | none => exact absurd (List.max?_eq_none_iff.mp hm) h
  | some a =>
    obtain ⟨ha, hb⟩ := int_max?_eq_some_iff.mp hm
    exact ⟨a, hm, ha, hb⟩

lemma list_sum_le {l : List Int} {b : Int} (h : ∀ x ∈ l, x ≤ b) :
    l.sum ≤ (l.length : ℤ) * b := by
  have := List.sum_le_card_nsmul l b h
  simpa [nsmul_eq_mul] using this

lemma le_list_sum {l : List Int} {a : Int} (h : ∀ x ∈ l, a ≤ x) :
    (l.length : ℤ) * a ≤ l.sum := by
  have := List.card_nsmul_le_sum l a h
  simpa [nsmul_eq_mul] using this

lemma fansAvg_between {l : List Int} {mn mx : Int} (hne : l ≠ [])
    (h0 : 0 ≤ mn) (hmn : ∀ x ∈ l, mn ≤ x) (hmx : ∀ x ∈ l, x ≤ mx) :
    mn ≤ fansAvg l ∧ fansAvg l ≤ mx := by
  have hlen : 0 < l.length := List.length_pos.mpr hne
  have hlenQ : (0 : ℚ) < (l.length : ℚ) := by exact_mod_cast hlen
  have hsum_lo : (l.length : ℤ) * mn ≤ l.sum := le_list_sum hmn
  have hsum_hi : l.sum ≤ (l.length : ℤ) * mx := list_sum_le hmx
  have hlo : (mn : ℚ) ≤ (l.sum : ℚ) / (l.length : ℚ) := by
    rw [le_div_iff₀ hlenQ]
    have : ((l.length : ℤ) : ℚ) * (mn : ℚ) ≤ ((l.sum : ℤ) : ℚ) := by
      exact_mod_cast hsum_lo
    push_cast at this ⊢
    linarith
  have hhi : (l.sum : ℚ) / (l.length : ℚ) ≤ (mx : ℚ) := by
    rw [div_le_iff₀ hlenQ]
    have : ((l.sum : ℤ) : ℚ) ≤ ((l.length : ℤ) : ℚ) * (mx : ℚ) := by
      exact_mod_cast hsum_hi
    push_cast at this ⊢
    linarith
  have h0q : (0 : ℚ) ≤ (l.sum : ℚ) / (l.length : ℚ) :=
    le_trans (by exact_mod_cast h0) hlo
  exact f64Round_bounds h0q hlo hhi

lemma renderToken_ok_of_known (a m M : Int) {tok : TemplateToken}
    (h : tok.known = true) :
    ∃ s, renderToken [("{average}", a), ("{min}", m), ("{max}", M)] tok =
      Except.ok s := by
  cases tok with
  | lit s => exact ⟨s, rfl⟩
  | var n =>
    simp only [TemplateToken.known, Bool.or_eq_true, beq_iff_eq, or_assoc] at h
    rcases h with h | h | h <;> subst h
    · exact ⟨toString a, rfl⟩
    · exact ⟨toString m, rfl⟩
    · exact ⟨toString M, rfl⟩

lemma render_ok_of_wellFormed {t : FormatTemplate} (a m M : Int)
    (h : t.wellFormed) :
    ∃ s, render_static_str t [("{average}", a), ("{min}", m), ("{max}", M)] =
      Except.ok s := by
  induction t with
  | nil => exact ⟨"", rfl⟩
  | cons tok rest ih =>
    obtain ⟨s1, hs1⟩ :=
      renderToken_ok_of_known a m M (h tok (List.mem_cons_self _ _))
    obtain ⟨s2, hs2⟩ := ih fun x hx => h x (List.mem_cons_of_mem _ hx)
    exact ⟨s1 ++ s2, by simp only [render_static_str, hs1, hs2]⟩

/-! ## Claim theorems -/

/-- C1: For every non-empty ReadingSet accumulated in an update cycle, the
aggregator produces `min` equal to the minimum member, `max` equal to the
maximum member, and `average` equal to the nearest-integer rounding of
(sum of members / count) with round-half-away-from-zero semantics; in
particular readings `{100, 101}` yield average `101`. -/
theorem aggregator_min_max_average_spec (fans : List Int) (h : fans ≠ []) :
    (∃ mn, fansMin fans = some mn ∧ mn ∈ fans ∧ ∀ x ∈ fans, mn ≤ x) ∧
    (∃ mx, fansMax fans = some mx ∧ mx ∈ fans ∧ ∀ x ∈ fans, x ≤ mx) ∧
    fansAvg fans = roundHalfAwayFromZero ((fans.sum : ℚ) / (fans.length : ℚ)) ∧
    fansAvg [100, 101] = 101 := by
  refine ⟨fansMin_spec h, fansMax_spec h, ?_, ?_⟩
  · rw [fansAvg]; exact f64Round_eq_roundHalfAwayFromZero _
  · norm_num [fansAvg, f64Round, round_eq]

/-- Witness for C1: the aggregator facts instantiated at the readings
`[100, 101]`. -/
theorem aggregator_min_max_average_spec_witness :
    (([100, 101] : List Int) ≠ []) ∧
    ((∃ mn, fansMin [100, 101] = some mn ∧ mn ∈ ([100, 101] : List Int) ∧
        ∀ x ∈ ([100, 101] : List Int), mn ≤ x) ∧
     (∃ mx, fansMax [100, 101] = some mx ∧ mx ∈ ([100, 101] : List Int) ∧
        ∀ x ∈ ([100, 101] : List Int), x ≤ mx) ∧
     fansAvg [100, 101] =
       roundHalfAwayFromZero ((([100, 101] : List Int).sum : ℚ) /
         (([100, 101] : List Int).length : ℚ)) ∧
     fansAvg [100, 101] = 101) :=
  ⟨by decide, aggregator_min_max_average_spec [100, 101] (by decide)⟩

/-- C7: For all valid (non-empty) ReadingSets — every member in
`[0, 10000)` — the aggregate satisfies `min ≤ average ≤ max` over the
integers produced by the aggregator. -/
theorem aggregate_min_le_average_le_max (fans : List Int) (h : fans ≠ [])
    (hv : ∀ x ∈ fans, 0 ≤ x ∧ x < 10000) (mn mx : Int)
    (hmn : fansMin fans = some mn) (hmx : fansMax fans = some mx) :
    mn ≤ fansAvg fans ∧ fansAvg fans ≤ mx := by
  obtain ⟨hmem, hle⟩ := int_min?_eq_some_iff.mp hmn
  obtain ⟨_, hge⟩ := int_max?_eq_some_iff.mp hmx
  exact fansAvg_between h (hv mn hmem).1 hle hge

/-- Witness for C7: the invariant instantiated at the readings
`[1200, 1400]`. -/
theorem aggregate_min_le_average_le_max_witness :
    (([1200, 1400] : List Int) ≠ []) ∧
    (∀ x ∈ ([1200, 1400] : List Int), 0 ≤ x ∧ x < 10000) ∧
    fansMin [1200, 1400] = some 1200 ∧ fansMax [1200, 1400] = some 1400 ∧
    (1200 ≤ fansAvg [1200, 1400] ∧ fansAvg [1200, 1400] ≤ 1400) :=
  ⟨by decide, by decide, by decide, by decide,
    aggregate_min_le_average_le_max [1200, 1400] (by decide) (by decide)
      1200 1400 (by decide) (by decide)⟩

/-- C2: If the update cycle produces an empty ReadingSet (no valid
readings survive parsing and filtering), the cycle completes successfully
— it returns the re-schedule request, not an error — and the block state,
in particular DisplayText, is exactly the state before the cycle. -/
theorem empty_reading_set_keeps_display (f : Fan) (raw : Option Json)
    (parsed : SensorsOutput) (hparse : raw.bind parseSensorsOutput = some parsed)
    (hempty : (collectFans f.inputs parsed).1 = []) :
    Fan.update f raw = (f, Except.ok (some ⟨f.update_interval⟩)) := by
  unfold Fan.update
  rw [hparse]
  simp only [hempty, List.isEmpty_nil, if_true]

/-- Witness for C2: a cycle whose only metric is rejected by the
metric-name filter leaves the previous DisplayText in place and
re-schedules. -/
theorem empty_reading_set_keeps_display_witness :
    ((some exJsonNoFans).bind parseSensorsOutput = some exParsedNoFans) ∧
    ((collectFans exFan.inputs exParsedNoFans).1 = []) ∧
    Fan.update exFan (some exJsonNoFans) =
      (exFan, Except.ok (some ⟨exFan.update_interval⟩)) :=
  ⟨rfl, by decide,
    empty_reading_set_keeps_display exFan (some exJsonNoFans) exParsedNoFans
      rfl (by decide)⟩

/-- C3: For every sensor-command output text that is not valid JSON or is
not shaped as a two-level nested mapping, the update cycle fails with the
propagated parse error, no aggregation is attempted and the block state —
in particular DisplayText — is unchanged. -/
theorem parse_failure_fails_cycle (f : Fan) (raw : Option Json)
    (hfail : raw = none ∨ ∃ j, raw = some j ∧ parseSensorsOutput j = none) :
    Fan.update f raw =
      (f, Except.error ⟨"temperature", "sensors output is invalid"⟩) := by
  have hb : raw.bind parseSensorsOutput = none := by
    rcases hfail with h | ⟨j, hj, hpj⟩
    · rw [h]; rfl
    · rw [hj]; simpa using hpj
  unfold Fan.update
  rw [hb]

/-- Witness for C3: plain-text command output (valid JSON only as a
string, not a nested mapping) makes the cycle fail and leaves the state
untouched. -/
theorem parse_failure_fails_cycle_witness :
    (some (Json.str "No sensors found!") = none ∨
      ∃ j, some (Json.str "No sensors found!") = some j ∧
        parseSensorsOutput j = none) ∧
    Fan.update exFan (some (Json.str "No sensors found!")) =
      (exFan, Except.error ⟨"temperature", "sensors output is invalid"⟩) :=
  ⟨Or.inr ⟨Json.str "No sensors found!", rfl, rfl⟩,
    parse_failure_fails_cycle exFan (some (Json.str "No sensors found!"))
      (Or.inr ⟨Json.str "No sensors found!", rfl, rfl⟩)⟩

/-- C10: under the precondition that the accumulated reading list is
non-empty (and the template carries only the three recognized
placeholders, the construction invariant), the error branches attached to
the minimum and maximum extraction are unreachable: after a successful
top-level parse, `update` returns `Ok` with a re-schedule request. -/
theorem nonempty_readings_update_ok (f : Fan) (raw : Option Json)
    (parsed : SensorsOutput) (hparse : raw.bind parseSensorsOutput = some parsed)
    (hwf : f.format.wellFormed)
    (hne : (collectFans f.inputs parsed).1 ≠ []) :
    ∃ f', Fan.update f raw = (f', Except.ok (some ⟨f.update_interval⟩)) := by
  unfold Fan.update
  rw [hparse]
  simp only
  have hEmpty : (collectFans f.inputs parsed).1.isEmpty = false := by
    cases h : (collectFans f.inputs parsed).1 with
    | nil => exact absurd h hne
    | cons a rest => rfl
  obtain ⟨mx, hmx, _, _⟩ := fansMax_spec hne
  obtain ⟨mn, hmn, _, _⟩ := fansMin_spec hne
  obtain ⟨s, hs⟩ :=
    render_ok_of_wellFormed (fansAvg (collectFans f.inputs parsed).1) mn mx hwf
  simp only [hEmpty, Bool.false_eq_true, if_false, hmx, hmn, hs]
  exact ⟨_, rfl⟩

/-- Witness for C10: the sample two-fan output under the default
configuration re-schedules with `Ok`. -/
theorem nonempty_readings_update_ok_witness :
    ((some exJson).bind parseSensorsOutput = some exParsed) ∧
    exFan.format.wellFormed ∧
    ((collectFans exFan.inputs exParsed).1 ≠ []) ∧
    ∃ f', Fan.update exFan (some exJson) =
      (f', Except.ok (some ⟨exFan.update_interval⟩)) :=
  ⟨rfl, by decide, by decide,
    nonempty_readings_update_ok exFan (some exJson) exParsed rfl
      (by decide) (by decide)⟩

/-- C4: For every selected (chip, input, metric, value) quadruple — the
metric name having passed the `fan…input` pattern — the value is appended
to the reading list (truncated toward zero) if and only if it lies in the
half-open range `[0, 10000)`; an out-of-range value is instead recorded
only as a non-fatal diagnostic, and processing is total (never aborts). -/
theorem range_filter_spec (fans : List Int) (diags : List String)
    (name : String) (v : ℚ)
    (h1 : strStartsWith name "fan" = true)
    (h2 : strEndsWith name "input" = true) :
    (processValue (fans, diags) (name, v) = (fans ++ [f64AsI64 v], diags) ↔
      0 ≤ v ∧ v < 10000) ∧
    (¬(0 ≤ v ∧ v < 10000) →
      processValue (fans, diags) (name, v) = (fans, diags ++ [rangeDiagnostic v])) := by
  have hguard : ¬(¬ strStartsWith name "fan" ∨ ¬ strEndsWith name "input") := by
    simp [h1, h2]
  constructor
  · constructor
    · intro heq
      by_contra hrange
      rw [processValue, if_neg hguard, if_neg hrange] at heq
      have := congrArg Prod.fst heq
      simp at this
    · intro hrange
      rw [processValue, if_neg hguard, if_pos hrange]
  · intro hrange
    rw [processValue, if_neg hguard, if_neg hrange]

/-- Witness for C4: value `0` (closed lower bound) is appended; value
`10000` (open upper bound) is only recorded as a diagnostic. -/
theorem range_filter_spec_witness :
    (strStartsWith "fan1_input" "fan" = true) ∧
    (strEndsWith "fan1_input" "input" = true) ∧
    processValue ([], []) ("fan1_input", 0) = ([f64AsI64 0], []) ∧
    processValue ([], []) ("fan1_input", 10000) =
      ([], [rangeDiagnostic 10000]) :=
  ⟨by decide, by decide,
    (range_filter_spec [] [] "fan1_input" 0 (by decide) (by decide)).1.mpr
      (by norm_num),
    (range_filter_spec [] [] "fan1_input" 10000 (by decide) (by decide)).2
      (by norm_num)⟩

/-- C5: a metric's value is considered for the ReadingSet — i.e. the
per-value step is not a no-op for every value — exactly when the metric
name starts with `"fan"` and ends with `"input"`; in particular the
degenerate name `"faninput"` passes and `"fan1_min"`, `"fan1_max"`,
`"fan1_alarm"` are skipped. -/
theorem metric_name_filter_spec :
    (∀ name : String,
      (strStartsWith name "fan" = true ∧ strEndsWith name "input" = true) ↔
        ¬(∀ acc v, processValue acc (name, v) = acc)) ∧
    (strStartsWith "faninput" "fan" = true ∧
      strEndsWith "faninput" "input" = true) ∧
    (∀ acc v, processValue acc ("fan1_min", v) = acc) ∧
    (∀ acc v, processValue acc ("fan1_max", v) = acc) ∧
    (∀ acc v, processValue acc ("fan1_alarm", v) = acc) := by
  refine ⟨?_, by decide, ?_, ?_, ?_⟩
  · intro name
    constructor
    · rintro ⟨h1, h2⟩ hall
      have hguard : ¬(¬ strStartsWith name "fan" ∨ ¬ strEndsWith name "input") := by
        simp [h1, h2]
      have hv := hall ([], []) 0
      rw [processValue, if_neg hguard, if_pos (by norm_num)] at hv
      have := congrArg Prod.fst hv
      simp at this
    · intro hnotall
      by_contra hpat
      apply hnotall
      intro acc v
      have hguard : ¬ strStartsWith name "fan" = true ∨
          ¬ strEndsWith name "input" = true := not_and_or.mp hpat
      rw [processValue, if_pos (by simpa using hguard)]
  · intro acc v
    rw [processValue,
      if_pos (Or.inr (show ¬ strEndsWith "fan1_min" "input" = true by decide))]
  · intro acc v
    rw [processValue,
      if_pos (Or.inr (show ¬ strEndsWith "fan1_max" "input" = true by decide))]
  · intro acc v
    rw [processValue,
      if_pos (Or.inr (show ¬ strEndsWith "fan1_alarm" "input" = true by decide))]

/-- Witness for C5: the filter facts instantiated at `"faninput"` (which
is accepted: there is a value whose processing changes the accumulator)
and at `"fan1_min"` (always skipped). -/
theorem metric_name_filter_spec_witness :
    (¬(∀ acc v, processValue acc ("faninput", v) = acc)) ∧
    processValue ([], []) ("fan1_min", 0) = ([], []) :=
  ⟨(metric_name_filter_spec.1 "faninput").mp (by decide),
    metric_name_filter_spec.2.2.1 ([], []) 0⟩

/-- C6: when a whitelist is configured, an input contributes exactly when
its label is a member — member inputs are processed as if no whitelist
were set, non-members are skipped; when no whitelist is configured the
input label plays no role at all (every label is accepted). -/
theorem whitelist_filter_spec :
    (∀ (wl : List String) (acc : List Int × List String) (input : String × Json),
      processInput (some wl) acc input =
        if wl.contains input.1 then processInput none acc input else acc) ∧
    (∀ (acc : List Int × List String) (label1 label2 : String) (j : Json),
      processInput none acc (label1, j) = processInput none acc (label2, j)) := by
  constructor
  · intro wl acc input
    by_cases h : wl.contains input.1 <;> simp [processInput, h]
  · intro acc l1 l2 j
    rfl

/-- Witness for C6: with whitelist `["fan1"]`, input `fan2` is skipped and
input `fan1` is processed exactly as without a whitelist. -/
theorem whitelist_filter_spec_witness :
    processInput (some ["fan1"]) ([], [])
      ("fan2", Json.obj [("fan2_input", Json.num 1400)]) = ([], []) ∧
    processInput (some ["fan1"]) ([], [])
      ("fan1", Json.obj [("fan1_input", Json.num 1200)]) =
      processInput none ([], [])
        ("fan1", Json.obj [("fan1_input", Json.num 1200)]) := by
  constructor
  · rw [whitelist_filter_spec.1 ["fan1"] ([], [])
      ("fan2", Json.obj [("fan2_input", Json.num 1400)])]
    rw [if_neg (by decide)]
  · rw [whitelist_filter_spec.1 ["fan1"] ([], [])
      ("fan1", Json.obj [("fan1_input", Json.num 1200)])]
    rw [if_pos (by decide)]

/-- C8, counterexample to the claim as stated: a sensor command run that
fails with a non-zero exit status is still `Ok` for `Command::output`, so
the invoker returns the trimmed standard output — a value that depends on
stdout, not any stringified error. -/
theorem invoker_nonzero_exit_counterexample :
    commandOutputText (SpawnResult.ok 1 " 2040 ") = "2040" ∧
    commandOutputText (SpawnResult.ok 2 "abc") ≠
      commandOutputText (SpawnResult.ok 2 "xyz") := by
  constructor
  · decide
  · decide

/-- C8 as amended: only a failure to launch the command (command missing,
I/O error) makes the invoker return the stringified error as the output
text instead of raising; whenever the process ran — regardless of exit
status — the invoker returns the trimmed standard output. -/
theorem invoker_output_spec :
    (∀ e, commandOutputText (SpawnResult.ioErr e) = e) ∧
    (∀ st out, commandOutputText (SpawnResult.ok st out) = strTrim out) :=
  ⟨fun _ => rfl, fun _ _ => rfl⟩

/-- Witness for C8: the amended contract instantiated at a spawn error and
at a successful run with padded stdout. -/
theorem invoker_output_spec_witness :
    commandOutputText (SpawnResult.ioErr "No such file or directory (os error 2)") =
      "No such file or directory (os error 2)" ∧
    commandOutputText (SpawnResult.ok 0 "  1300  ") = "1300" :=
  ⟨invoker_output_spec.1 "No such file or directory (os error 2)",
    (invoker_output_spec.2 0 "  1300  ").trans (by decide)⟩

/-- C9: equal reading values are each counted individually — the
accumulator is a list (Vec), not a deduplicating set: three readings
100, 100, 103 from distinct inputs collect to the list `[100, 100, 103]`
whose average is `round(303/3) = 101`, not `round(203/2) = 102`. -/
theorem duplicate_readings_counted_individually :
    (collectFans none exParsedDup).1 = [100, 100, 103] ∧
    fansAvg [100, 100, 103] = 101 ∧
    f64Round ((203 : ℚ) / 2) = 102 := by
  refine ⟨by decide, ?_, ?_⟩
  · norm_num [fansAvg, f64Round, round_eq]
  · norm_num [f64Round, round_eq]
